import Mathlib

/-!
Shallow embedding of the connection dispatch / radio-session orchestrator
(`connect.go` of the pat fork): `Connect`, `connectAny`, `qsy`, `waitBusy`,
`initArdopTNC`, `initPactorModem`, `initVaraModem`.

External collaborators (URL parsing, modem constructors, the rig subsystem,
the transport dial, the exchange protocol, the status sink) are modelled at
their boundary by an `Env` oracle that fixes their responses, and every
observable side effect is recorded in an event trace.  Go `defer` statements
are modelled by an explicit LIFO list of deferred actions that is run on
every exit path of the function body.
-/

set_option maxRecDepth 4000

/-- Transport scheme constants of the repository (defined outside the given
source file). Modelled from the spec: the enumerated scheme set
ardop, pactor, varahf, varafm, ax25, telnet, serial-tnc. -/
def MethodArdop : String := "ardop"

def MethodPactor : String := "pactor"

def MethodVaraHF : String := "varahf"

def MethodVaraFM : String := "varafm"

def MethodAX25 : String := "ax25"

def MethodSerialTNC : String := "serial-tnc"

def MethodTelnet : String := "telnet"

/-- A parsed connection descriptor (`transport.URL`). -/
structure URL where
  scheme : String
  target : String
  user : Option String
  host : String
  params : List (String × String)
deriving DecidableEq

instance : Inhabited URL := ⟨⟨"", "", none, "", []⟩⟩

/-- `url.Params.Get k`: first value bound to `k`, or `""`. -/
def URL.getParam (u : URL) (k : String) : String :=
  match u.params.find? (fun p => p.1 == k) with
  | some p => p.2
  | none => ""

/-- `url.Params[k]` (all values bound to `k`, in order). -/
def URL.getAll (u : URL) (k : String) : List String :=
  (u.params.filter (fun p => p.1 == k)).map (·.2)

/-- `url.Params.Set k v`: replace all bindings of `k` by a single one. -/
def URL.setParam (u : URL) (k v : String) : URL :=
  { u with params := (k, v) :: u.params.filter (fun p => !(p.1 == k)) }

/-- `url.SetUser`. -/
def URL.setUser (u : URL) (s : String) : URL := { u with user := some s }

/-- Observable events of one run (log lines, modem opens/closes, frequency
commands, status-sink notifications, the transport-level dial). -/
inductive Ev where
  | debugStr (s : String)
  | logParseErr
  | logInitErr
  | modemOpen (scheme : String) (h : Nat)
  | modemClose (scheme : String) (h : Nat)
  | registerDialer (scheme : String) (h : Nat)
  | setPTT (scheme : String) (h : Nat)
  | logRadioOnlySSID
  | logRadioOnlyNA (scheme : String)
  | logQSY (scheme : String) (addr : String)
  | setFreqCmd (rig : Nat) (newF oldF : Int)
  | logQSYErr
  | revertFreq (rig : Nat) (f : Int)
  | busyObserved
  | logWaitingClear
  | logIgnoringBusy
  | updateStatus
  | logConnecting (target scheme : String)
  | dialAttempt (scheme target : String)
  | logConn (freq : Int)
  | logCancelled
  | logDialErr
  | logExchangeFail
  | logDisconnected
deriving DecidableEq

abbrev Trace := List Ev

/-- Outcome of `transport.DialURLContext` fixed by the environment:
success, a transport-level error, or `context.Canceled` (the package-level
cancellation hook was invoked while the dial was in flight). -/
inductive DialOutcome where
  | ok
  | failed
  | cancelled
deriving DecidableEq

/-- Modelled from the spec: the external rig lookup
`rigFor(scheme) -> (handle, name, found, error)` (`VFOForTransport`). -/
inductive VFORes where
  | okRes (rig : Nat) (name : String)
  | notLoaded (name : String)
  | errRes
deriving DecidableEq

/-- The per-scheme VARA configuration slice that is observable in this model
(`cfg.VaraConfig`): whether PTT control is requested and whether the
configured PTT rig name resolves to a loaded rig.  Host and port fields only
parameterize the external modem constructor and are absorbed by the oracle. -/
structure VaraConf where
  pttControl : Bool
  rigOk : Bool
deriving DecidableEq

/-- Responses of all external collaborators and configuration, fixed for a
run: alias table, URL parser, station options, rig lookup, modem
constructor / probe outcomes, busy-channel readings, dial and exchange
outcomes. -/
structure Env where
  connectAliases : String → Option String
  parseURL : String → Option URL
  myCall : String
  radioOnlyOpt : Bool
  ignoreBusy : Bool
  vfoFor : String → VFORes
  parseFreq : String → Option Int
  busy : List Bool
  dialOutcome : DialOutcome
  exchangeOk : Bool
  ardopOpenOk : Bool
  ardopPingOk : Nat → Bool
  arqBwZero : Bool
  setARQOk : Bool
  setCWIDOk : Bool
  versionOk : Bool
  ardopPTTControl : Bool
  ardopRigOk : Bool
  pactorOpenOk : Bool
  varaOpenOk : Bool
  varaHF : VaraConf
  varaFM : VaraConf
  ax25Port : String
  serialPath : String
  hbaud : Int
  serialBaud : Int

/-- Mutable package-level state: the four modem handle variables, the
"currently dialing" slot, the dialer registry, the rig frequencies, and a
fresh-handle counter used to give each opened modem a distinct identity. -/
structure State where
  adTNC : Option Nat
  pModem : Option Nat
  varaHFModem : Option Nat
  varaFMModem : Option Nat
  dialing : Option URL
  registered : String → Option Nat
  freqs : Nat → Int
  nextHandle : Nat

/-- `hasSSID`: the callsign contains a dash (`strings.Contains(str, "-")`;
containment of the one-character string "-" is containment of the
character). -/
def hasSSID (str : String) : Bool := str.toList.contains '-'

/-- Go `strconv.ParseBool`, with the zero value `false` on a parse error
(the code discards the error: `radioOnly, _ = strconv.ParseBool(v)`). -/
def parseBool (s : String) : Bool :=
  (["1", "t", "T", "TRUE", "true", "True"] : List String).contains s

/-- A pending `defer`: the status-sink update registered at the top of
`Connect`, the frequency revert closure returned by `qsy`, and the
`dialCancelFunc` closure (`dialing = nil; cancel()`). -/
inductive Deferred where
  | statusUpdate
  | revertAct (rig : Nat) (f : Int)
  | dialCancel
deriving DecidableEq

def runDeferred : Deferred → State → State × Trace
  | .statusUpdate, st => (st, [Ev.updateStatus])
  | .revertAct rig f, st =>
      ({ st with freqs := fun r => if r = rig then f else st.freqs r },
       [Ev.revertFreq rig f])
  | .dialCancel, st => ({ st with dialing := none }, [])

/-- Run pending defers; the list head is the most recently registered defer,
so running the list front to back is Go's LIFO order. -/
def runDefers : List Deferred → State → State × Trace
  | [], st => (st, [])
  | d :: ds, st =>
    let r1 := runDeferred d st
    let r2 := runDefers ds r1.1
    (r2.1, r1.2 ++ r2.2)

/-- Return from the function body: run the pending defers and append their
events to the trace. -/
def finish (b : Bool) (st : State) (tr : Trace) (ds : List Deferred) :
    Bool × State × Trace :=
  let r := runDefers ds st
  (b, r.1, tr ++ r.2)

/-- Modelled from the spec: `setFreq(rig, addr)` of the repository (outside
the given source file) parses the target frequency, reads back the current
frequency as `oldFreq`, and commands the new one.  Returns
`(newFreq, oldFreq)` or a parse error. -/
def setFreq (env : Env) (st : State) (rig : Nat) (addr : String) :
    Option (Int × Int) × State :=
  match env.parseFreq addr with
  | none => (none, st)
  | some f =>
      (some (f, st.freqs rig),
       { st with freqs := fun r => if r = rig then f else st.freqs r })

/-- `qsy(method, addr)`: look up the rig for the scheme, command the new
frequency, and return the revert payload (rig, remembered old frequency);
`none` stands for the error return (rig lookup failed, rig not loaded, or
`setFreq` failed), in which case the no-op revert is returned and the caller
does not defer it. -/
def qsy (env : Env) (st : State) (method addr : String) :
    Option (Nat × Int) × State × Trace :=
  match env.vfoFor method with
  | .errRes => (none, st, [])
  | .notLoaded _ => (none, st, [])
  | .okRes rig _ =>
    let r := setFreq env st rig addr
    match r.1 with
    | none => (none, r.2, [Ev.logQSY method addr])
    | some fo =>
        (some (rig, fo.2), r.2,
         [Ev.logQSY method addr, Ev.setFreqCmd rig fo.1 fo.2])

/-- `waitBusy` with the successive `Busy()` poll results given as a finite
list (the channel reads not-busy once the list is exhausted); used inside
`Connect`.  `printed` is the loop's log-once flag. -/
def waitBusyL (ig : Bool) : List Bool → Bool → Trace
  | [], _ => []
  | b :: rest, printed =>
    if b then
      if !printed && ig then [Ev.busyObserved, Ev.logIgnoringBusy]
      else if !printed then
        [Ev.busyObserved, Ev.logWaitingClear] ++ waitBusyL ig rest true
      else Ev.busyObserved :: waitBusyL ig rest printed
    else []

/-- `waitBusy` over an unbounded busy predicate, instrumented with fuel:
`none` marks divergence (the loop would poll beyond the fuel). -/
def waitBusyGo (ig : Bool) (busy : Nat → Bool) :
    Nat → Nat → Bool → Option Trace
  | 0, _, _ => none
  | fuel + 1, i, printed =>
    if busy i then
      if !printed && ig then some [Ev.busyObserved, Ev.logIgnoringBusy]
      else
        let hd :=
          if !printed then [Ev.busyObserved, Ev.logWaitingClear]
          else [Ev.busyObserved]
        (waitBusyGo ig busy fuel (i + 1) true).map (hd ++ ·)
    else some []

def waitBusy (ig : Bool) (busy : Nat → Bool) (fuel : Nat) : Option Trace :=
  waitBusyGo ig busy fuel 0 false

/-- Common tail of `initArdopTNC`: open a fresh TNC and apply the post-open
configuration steps, threading the trace of a preceding close. -/
def initArdopOpen (env : Env) (st : State) (tr0 : Trace) :
    Bool × State × Trace :=
  if !env.ardopOpenOk then (false, { st with adTNC := none }, tr0)
  else
    let h := st.nextHandle
    let st1 := { st with adTNC := some h, nextHandle := h + 1 }
    let tr1 := tr0 ++ [Ev.modemOpen MethodArdop h]
    if !env.arqBwZero && !env.setARQOk then (false, st1, tr1)
    else if !env.setCWIDOk then (false, st1, tr1)
    else if !env.versionOk then (false, st1, tr1)
    else
      let st2 := { st1 with
        registered := fun s => if s = MethodArdop then some h else st1.registered s }
      let tr2 := tr1 ++ [Ev.registerDialer MethodArdop h]
      if !env.ardopPTTControl then (true, st2, tr2)
      else if !env.ardopRigOk then (false, st2, tr2)
      else (true, st2, tr2 ++ [Ev.setPTT MethodArdop h])

/-- `initArdopTNC`: reuse the TNC when it answers a ping, otherwise close it
and open a fresh one. -/
def initArdopTNC (env : Env) (st : State) : Bool × State × Trace :=
  match st.adTNC with
  | some h =>
    if env.ardopPingOk h then (true, st, [])
    else initArdopOpen env { st with adTNC := none }
        [Ev.modemClose MethodArdop h]
  | none => initArdopOpen env st []

/-- `initPactorModem`: unconditionally close any existing modem, then open a
fresh one (the command-line init string only parameterizes the external
constructor). -/
def initPactorModem (env : Env) (st : State) (cmdlineinit : String) :
    Bool × State × Trace :=
  let c : State × Trace :=
    match st.pModem with
    | some h => ({ st with pModem := none }, [Ev.modemClose MethodPactor h])
    | none => (st, [])
  let _ := cmdlineinit
  if !env.pactorOpenOk then (false, { c.1 with pModem := none }, c.2)
  else
    let h := c.1.nextHandle
    let st1 := { c.1 with
      pModem := some h,
      nextHandle := h + 1,
      registered := fun s => if s = MethodPactor then some h else c.1.registered s }
    (true, st1,
     c.2 ++ [Ev.modemOpen MethodPactor h, Ev.registerDialer MethodPactor h])

/-- `initVaraModem(vModem, scheme, conf)`.  The Go function receives the
package-level modem pointer BY VALUE and assigns the newly opened modem to
that parameter, so the package-level variable (`varaHFModem` /
`varaFMModem`) is never updated; accordingly this model reads `vModem` but
never writes the corresponding `State` field. -/
def initVaraModem (env : Env) (st : State) (vModem : Option Nat)
    (scheme : String) (conf : VaraConf) : Bool × State × Trace :=
  let tr0 : Trace :=
    match vModem with
    | some h => [Ev.modemClose scheme h]
    | none => []
  if !env.varaOpenOk then (false, st, tr0)
  else
    let h := st.nextHandle
    let st1 := { st with
      nextHandle := h + 1,
      registered := fun s => if s = scheme then some h else st.registered s }
    let tr1 := tr0 ++ [Ev.modemOpen scheme h, Ev.registerDialer scheme h]
    if !conf.pttControl then (true, st1, tr1)
    else if !conf.rigOk then (false, st1, tr1)
    else (true, st1, tr1 ++ [Ev.setPTT scheme h])

/-- The `switch url.Scheme` block of `Connect` that ensures the modem for
the scheme is ready; schemes without a modem init fall through
successfully. -/
def modemInitStep (env : Env) (st : State) (url : URL) :
    Bool × State × Trace :=
  if url.scheme = MethodArdop then initArdopTNC env st
  else if url.scheme = MethodPactor then
    initPactorModem env st (String.intercalate "\n" (url.getAll "init"))
  else if url.scheme = MethodVaraHF then
    initVaraModem env st st.varaHFModem MethodVaraHF env.varaHF
  else if url.scheme = MethodVaraFM then
    initVaraModem env st st.varaFMModem MethodVaraFM env.varaFM
  else (true, st, [])

/-- Default userinfo and host-interface filling of `Connect`. -/
def applyDefaults (env : Env) (url : URL) : URL :=
  let u1 := if url.user = none then url.setUser env.myCall else url
  if u1.host = "" then
    if u1.scheme = MethodAX25 then { u1 with host := env.ax25Port }
    else if u1.scheme = MethodSerialTNC then
      let u2 := { u1 with host := env.serialPath }
      let u3 := if env.hbaud > 0 then u2.setParam "hbaud" (toString env.hbaud) else u2
      if env.serialBaud > 0 then u3.setParam "serial_baud" (toString env.serialBaud)
      else u3
    else u1
  else u1

/-- The radio-only block of `Connect`: `none` means the call is rejected
(logged reason in the trace); otherwise the possibly `-T`-suffixed URL is
returned. -/
def radioOnlyStep (env : Env) (url : URL) : Option URL × Trace :=
  let v := url.getParam "radio_only"
  let radioOnly := if v ≠ "" then parseBool v else env.radioOnlyOpt
  if radioOnly then
    if hasSSID env.myCall then (none, [Ev.logRadioOnlySSID])
    else if url.scheme = MethodAX25 ∨ url.scheme = MethodSerialTNC then
      (none, [Ev.logRadioOnlyNA url.scheme])
    else (some (url.setUser ((url.user.getD "") ++ "-T")), [])
  else (some url, [])

/-- The QSY block of `Connect`: outer `none` = `qsy` returned an error (the
call aborts); `some none` = no `freq` parameter (no QSY); `some (some p)` =
successful QSY with revert payload `p`. -/
def qsyStep (env : Env) (st : State) (url : URL) :
    Option (Option (Nat × Int)) × State × Trace :=
  let fr := url.getParam "freq"
  if fr = "" then (some none, st, [])
  else
    let r := qsy env st url.scheme fr
    match r.1 with
    | none => (none, r.2.1, r.2.2 ++ [Ev.logQSYErr])
    | some p => (some (some p), r.2.1, r.2.2)

/-- The best-effort frequency snapshot taken for outcome logging. -/
def snapshotFreq (env : Env) (st : State) (scheme : String) : Int :=
  match env.vfoFor scheme with
  | .okRes rig _ => st.freqs rig
  | _ => 0

/-- The tail of `Connect` once the QSY block has succeeded (or was skipped):
register the revert defer (if any), snapshot the frequency, run the busy
gate for ardop, perform the cancellable dial, log the outcome, and on a
successful dial run the exchange.  `pre` is the trace accumulated so far;
the pending defers at this point are the status update, the optional
frequency revert, and `dialCancelFunc`, run in LIFO order. -/
def dialTail (env : Env) (st2 : State) (url2 : URL)
    (ro : Option (Nat × Int)) (pre : Trace) : Bool × State × Trace :=
  let d2 : List Deferred :=
    Deferred.dialCancel ::
      ((match ro with
        | some p => [Deferred.revertAct p.1 p.2]
        | none => []) ++ [Deferred.statusUpdate])
  let currFreq := snapshotFreq env st2 url2.scheme
  let tr4 :=
    if url2.scheme = MethodArdop then waitBusyL env.ignoreBusy env.busy false
    else []
  let st3 := { st2 with dialing := some url2 }
  let tr5 : Trace :=
    [Ev.updateStatus, Ev.logConnecting url2.target url2.scheme,
     Ev.dialAttempt url2.scheme url2.target]
  let st4 := { st3 with dialing := none }
  let tr6 : Trace := [Ev.updateStatus, Ev.logConn currFreq]
  let acc := pre ++ tr4 ++ tr5 ++ tr6
  match env.dialOutcome with
  | .cancelled => finish false st4 (acc ++ [Ev.logCancelled]) d2
  | .failed => finish false st4 (acc ++ [Ev.logDialErr]) d2
  | .ok =>
    if env.exchangeOk then finish true st4 (acc ++ [Ev.logDisconnected]) d2
    else finish false st4 (acc ++ [Ev.logExchangeFail]) d2

/-- The body of `Connect` after the empty-string and alias checks; the
status-sink defer is already registered when parsing starts. -/
def connectMain (env : Env) (str : String) (st : State) :
    Bool × State × Trace :=
  let d0 : List Deferred := [Deferred.statusUpdate]
  let tr0 : Trace := [Ev.debugStr str]
  match env.parseURL str with
  | none => finish false st (tr0 ++ [Ev.logParseErr]) d0
  | some url0 =>
    match modemInitStep env st url0 with
    | (false, st1, tr1) => finish false st1 (tr0 ++ tr1 ++ [Ev.logInitErr]) d0
    | (true, st1, tr1) =>
      let url1 := applyDefaults env url0
      match radioOnlyStep env url1 with
      | (none, tr2) => finish false st1 (tr0 ++ tr1 ++ tr2) d0
      | (some url2, tr2) =>
        match qsyStep env st1 url2 with
        | (none, st2, tr3) =>
            finish false st2 (tr0 ++ tr1 ++ tr2 ++ tr3) d0
        | (some ro, st2, tr3) =>
            dialTail env st2 url2 ro (tr0 ++ tr1 ++ tr2 ++ tr3)

/-- `Connect`: empty-string guard, recursive alias resolution (bounded by
fuel; the Go code recurses unboundedly on an alias cycle), then the body. -/
def Connect : Nat → Env → String → State → Bool × State × Trace
  | 0, _, _, st => (false, st, [])
  | fuel + 1, env, str, st =>
    if str = "" then (false, st, [])
    else
      match env.connectAliases str with
      | some aliased => Connect fuel env aliased st
      | none => connectMain env str st

/-- `connectAny`: try each candidate in order, short-circuiting on the
first success. -/
def connectAny (fuel : Nat) (env : Env) : List String → State → Bool × State × Trace
  | [], st => (false, st, [])
  | c :: rest, st =>
    let r := Connect fuel env c st
    if r.1 then (true, r.2.1, r.2.2)
    else
      let r2 := connectAny fuel env rest r.2.1
      (r2.1, r2.2.1, r.2.2 ++ r2.2.2)

/-! Event classifiers used to state the claims. -/

def Ev.isOpenEv : Ev → Bool
  | .modemOpen _ _ => true
  | _ => false

def Ev.isOpenForEv (s : String) : Ev → Bool
  | .modemOpen s2 _ => s2 == s
  | _ => false

def Ev.isCloseEv : Ev → Bool
  | .modemClose _ _ => true
  | _ => false

def Ev.isCloseForEv (s : String) : Ev → Bool
  | .modemClose s2 _ => s2 == s
  | _ => false

def Ev.isRevertEv : Ev → Bool
  | .revertFreq _ _ => true
  | _ => false

def Ev.isSetFreqEv : Ev → Bool
  | .setFreqCmd _ _ _ => true
  | _ => false

def Ev.isDialEv : Ev → Bool
  | .dialAttempt _ _ => true
  | _ => false

def Ev.isCancelLogEv : Ev → Bool
  | .logCancelled => true
  | _ => false

def Ev.isDialErrLogEv : Ev → Bool
  | .logDialErr => true
  | _ => false

/-- Events a modem-initialization routine may emit. -/
def Ev.isModemEv : Ev → Bool
  | .modemOpen _ _ | .modemClose _ _ | .registerDialer _ _ | .setPTT _ _ => true
  | _ => false

/-- Events the busy-channel gate may emit. -/
def Ev.isBusyGateEv : Ev → Bool
  | .busyObserved | .logWaitingClear | .logIgnoringBusy => true
  | _ => false

/-! Vocabulary lemmas: each stage of the pipeline only emits events of its
own kind, so cross-stage effect counts can be localized. -/

@[simp]
theorem Ev.isModemEv_open (s : String) (h : Nat) :
    (Ev.modemOpen s h).isModemEv = true := rfl

@[simp]
theorem Ev.isModemEv_close (s : String) (h : Nat) :
    (Ev.modemClose s h).isModemEv = true := rfl

@[simp]
theorem Ev.isModemEv_register (s : String) (h : Nat) :
    (Ev.registerDialer s h).isModemEv = true := rfl

@[simp]
theorem Ev.isModemEv_setPTT (s : String) (h : Nat) :
    (Ev.setPTT s h).isModemEv = true := rfl

theorem mem_initArdopOpen_isModemEv (env : Env) (st : State) (tr0 : Trace)
    (h0 : ∀ e ∈ tr0, e.isModemEv = true) :
    ∀ e ∈ (initArdopOpen env st tr0).2.2, e.isModemEv = true := by
  simp only [initArdopOpen]
  repeat' split
  all_goals simp only [List.forall_mem_append, List.forall_mem_cons,
    List.mem_append, List.mem_singleton, or_assoc]
  all_goals intro e he
  all_goals
    first
    | exact h0 e he
    | (rcases he with he | rfl | rfl | rfl <;> first | exact h0 e he | rfl)

theorem mem_initArdopTNC_isModemEv (env : Env) (st : State) :
    ∀ e ∈ (initArdopTNC env st).2.2, e.isModemEv = true := by
  simp only [initArdopTNC]
  repeat' split
  · simp
  · exact mem_initArdopOpen_isModemEv _ _ _ (by simp)
  · exact mem_initArdopOpen_isModemEv _ _ _ (by simp)

theorem mem_initPactorModem_isModemEv (env : Env) (st : State) (cmd : String) :
    ∀ e ∈ (initPactorModem env st cmd).2.2, e.isModemEv = true := by
  simp only [initPactorModem]
  repeat' split
  all_goals
    simp [List.forall_mem_append, List.forall_mem_cons]

theorem mem_initVaraModem_isModemEv (env : Env) (st : State)
    (vModem : Option Nat) (scheme : String) (conf : VaraConf) :
    ∀ e ∈ (initVaraModem env st vModem scheme conf).2.2, e.isModemEv = true := by
  simp only [initVaraModem]
  repeat' split
  all_goals
    simp [List.forall_mem_append, List.forall_mem_cons]

theorem mem_modemInitStep_isModemEv (env : Env) (st : State) (url : URL) :
    ∀ e ∈ (modemInitStep env st url).2.2, e.isModemEv = true := by
  simp only [modemInitStep]
  repeat' split
  · exact mem_initArdopTNC_isModemEv _ _
  · exact mem_initPactorModem_isModemEv _ _ _
  · exact mem_initVaraModem_isModemEv _ _ _ _ _
  · exact mem_initVaraModem_isModemEv _ _ _ _ _
  · simp

/-- The radio-only block's trace is one of three concrete shapes. -/
theorem radioOnlyStep_trace_shape (env : Env) (url : URL) :
    (radioOnlyStep env url).2 = [] ∨
    (radioOnlyStep env url).2 = [Ev.logRadioOnlySSID] ∨
    ∃ s, (radioOnlyStep env url).2 = [Ev.logRadioOnlyNA s] := by
  simp only [radioOnlyStep]
  repeat' split
  all_goals simp

/-- The QSY block's trace is one of four concrete shapes. -/
theorem qsyStep_trace_shape (env : Env) (st : State) (url : URL) :
    (qsyStep env st url).2.2 = [] ∨
    (qsyStep env st url).2.2 = [Ev.logQSYErr] ∨
    (∃ m a, (qsyStep env st url).2.2 = [Ev.logQSY m a, Ev.logQSYErr]) ∨
    ∃ m a r f o, (qsyStep env st url).2.2 = [Ev.logQSY m a, Ev.setFreqCmd r f o] := by
  simp only [qsyStep, qsy, setFreq]
  repeat' split
  all_goals simp_all

@[simp]
theorem Ev.isBusyGateEv_busyObserved : Ev.busyObserved.isBusyGateEv = true := rfl

@[simp]
theorem Ev.isBusyGateEv_logWaitingClear : Ev.logWaitingClear.isBusyGateEv = true := rfl

@[simp]
theorem Ev.isBusyGateEv_logIgnoringBusy : Ev.logIgnoringBusy.isBusyGateEv = true := rfl

theorem mem_waitBusyL_isBusyGateEv (ig : Bool) (l : List Bool) (pr : Bool) :
    ∀ e ∈ waitBusyL ig l pr, e.isBusyGateEv = true := by
  induction l generalizing pr with
  | nil => simp [waitBusyL]
  | cons b rest ih =>
    simp only [waitBusyL]
    repeat' split
    all_goals simp [List.forall_mem_cons, List.forall_mem_append]
    all_goals first | exact ih true | exact ih pr

/-- A modem-initialization event is none of the orchestrator's other
effects. -/
theorem modemEv_not (e : Ev) (h : e.isModemEv = true) :
    e.isRevertEv = false ∧ e.isSetFreqEv = false ∧ e.isDialEv = false ∧
    e.isCancelLogEv = false ∧ e.isDialErrLogEv = false := by
  cases e <;> simp_all [Ev.isModemEv, Ev.isRevertEv, Ev.isSetFreqEv,
    Ev.isDialEv, Ev.isCancelLogEv, Ev.isDialErrLogEv]

/-- A busy-gate event is none of the orchestrator's other effects. -/
theorem busyGateEv_not (e : Ev) (h : e.isBusyGateEv = true) :
    e.isRevertEv = false ∧ e.isSetFreqEv = false ∧ e.isDialEv = false ∧
    e.isCancelLogEv = false ∧ e.isDialErrLogEv = false ∧ e.isOpenEv = false := by
  cases e <;> simp_all [Ev.isBusyGateEv, Ev.isRevertEv, Ev.isSetFreqEv,
    Ev.isDialEv, Ev.isCancelLogEv, Ev.isDialErrLogEv, Ev.isOpenEv]

theorem countP_zero_of_mem (tr : Trace) (p : Ev → Bool)
    (h : ∀ e ∈ tr, p e = false) : tr.countP p = 0 :=
  List.countP_eq_zero.mpr (by intro a ha; simp [h a ha])

@[simp]
theorem waitBusyL_countP_revert (ig : Bool) (l : List Bool) (pr : Bool) :
    (waitBusyL ig l pr).countP Ev.isRevertEv = 0 :=
  countP_zero_of_mem _ _ fun e he =>
    (busyGateEv_not e (mem_waitBusyL_isBusyGateEv ig l pr e he)).1

@[simp]
theorem waitBusyL_countP_cancelLog (ig : Bool) (l : List Bool) (pr : Bool) :
    (waitBusyL ig l pr).countP Ev.isCancelLogEv = 0 :=
  countP_zero_of_mem _ _ fun e he =>
    (busyGateEv_not e (mem_waitBusyL_isBusyGateEv ig l pr e he)).2.2.2.1

@[simp]
theorem waitBusyL_countP_dialErrLog (ig : Bool) (l : List Bool) (pr : Bool) :
    (waitBusyL ig l pr).countP Ev.isDialErrLogEv = 0 :=
  countP_zero_of_mem _ _ fun e he =>
    (busyGateEv_not e (mem_waitBusyL_isBusyGateEv ig l pr e he)).2.2.2.2.1

/-! Frequency-preservation lemmas: no stage before the QSY block touches the
rig frequencies. -/

theorem initArdopOpen_freqs (env : Env) (st : State) (tr0 : Trace) :
    (initArdopOpen env st tr0).2.1.freqs = st.freqs := by
  simp only [initArdopOpen]
  repeat' split
  all_goals rfl

theorem initArdopTNC_freqs (env : Env) (st : State) :
    (initArdopTNC env st).2.1.freqs = st.freqs := by
  simp only [initArdopTNC]
  repeat' split
  · rfl
  · rw [initArdopOpen_freqs]
  · rw [initArdopOpen_freqs]

theorem initPactorModem_freqs (env : Env) (st : State) (cmd : String) :
    (initPactorModem env st cmd).2.1.freqs = st.freqs := by
  simp only [initPactorModem]
  repeat' split
  all_goals rfl

theorem initVaraModem_freqs (env : Env) (st : State) (vModem : Option Nat)
    (scheme : String) (conf : VaraConf) :
    (initVaraModem env st vModem scheme conf).2.1.freqs = st.freqs := by
  simp only [initVaraModem]
  repeat' split
  all_goals rfl

theorem modemInitStep_freqs (env : Env) (st : State) (url : URL) :
    (modemInitStep env st url).2.1.freqs = st.freqs := by
  simp only [modemInitStep]
  repeat' split
  · exact initArdopTNC_freqs _ _
  · exact initPactorModem_freqs _ _ _
  · exact initVaraModem_freqs _ _ _ _ _
  · exact initVaraModem_freqs _ _ _ _ _
  · rfl

/-- A successful `qsy` remembers exactly the frequency read before the
change as the revert payload. -/
theorem qsy_fst_some_oldFreq (env : Env) (st : State) (m a : String)
    (rig : Nat) (oldF : Int) (h : (qsy env st m a).1 = some (rig, oldF)) :
    oldF = st.freqs rig := by
  simp only [qsy, setFreq] at h
  cases hv : env.vfoFor m
  all_goals rw [hv] at h
  case notLoaded n => simp at h
  case errRes => simp at h
  case okRes r n =>
    cases hp : env.parseFreq a
    all_goals rw [hp] at h
    case none => simp at h
    case some f =>
      simp at h
      obtain ⟨h1, h2⟩ := h
      subst h1
      exact h2.symm

/-- A successful QSY block remembers exactly the frequency read before the
change as the revert payload. -/
theorem qsyStep_fst_some_oldFreq (env : Env) (st : State) (url : URL)
    (rig : Nat) (oldF : Int)
    (h : (qsyStep env st url).1 = some (some (rig, oldF))) :
    oldF = st.freqs rig := by
  simp only [qsyStep] at h
  split at h
  · simp at h
  · split at h
    · simp at h
    · simp only [Option.some.injEq] at h
      subst h
      exact qsy_fst_some_oldFreq _ _ _ _ _ _ (by assumption)

/-- Once the dial tail runs with a successful QSY payload, the revert action
fires exactly once (on every dial/exchange outcome) and the final rig
frequency is the remembered pre-QSY frequency. -/
theorem dialTail_revert_once (env : Env) (st2 : State) (url2 : URL)
    (rig : Nat) (oldF : Int) (pre : Trace) :
    ((dialTail env st2 url2 (some (rig, oldF)) pre).2.2).countP Ev.isRevertEv
        = pre.countP Ev.isRevertEv + 1 ∧
    (dialTail env st2 url2 (some (rig, oldF)) pre).2.1.freqs rig = oldF := by
  simp only [dialTail]
  cases env.dialOutcome
  case ok =>
    cases env.exchangeOk
    all_goals simp [finish, runDefers, runDeferred, List.countP_append,
      List.countP_cons, Ev.isRevertEv, apply_ite (List.countP Ev.isRevertEv)]
  all_goals simp [finish, runDefers, runDeferred, List.countP_append,
    List.countP_cons, Ev.isRevertEv, apply_ite (List.countP Ev.isRevertEv)]

/-- When the dial outcome is a cancellation, the dial tail returns `false`,
reports the cancellation (once) and not a dial error, and clears the
"currently dialing" slot. -/
theorem dialTail_cancelled (env : Env) (st2 : State) (url2 : URL)
    (ro : Option (Nat × Int)) (pre : Trace)
    (hc : env.dialOutcome = DialOutcome.cancelled) :
    (dialTail env st2 url2 ro pre).1 = false ∧
    ((dialTail env st2 url2 ro pre).2.2).countP Ev.isCancelLogEv
        = pre.countP Ev.isCancelLogEv + 1 ∧
    ((dialTail env st2 url2 ro pre).2.2).countP Ev.isDialErrLogEv
        = pre.countP Ev.isDialErrLogEv ∧
    (dialTail env st2 url2 ro pre).2.1.dialing = none := by
  simp only [dialTail, hc]
  cases ro
  all_goals simp [finish, runDefers, runDeferred, List.countP_append,
    List.countP_cons, Ev.isCancelLogEv, Ev.isDialErrLogEv,
    apply_ite (List.countP Ev.isCancelLogEv),
    apply_ite (List.countP Ev.isDialErrLogEv)]

/-- C1: a Connect run whose QSY block succeeds runs the revert action
exactly once before returning, on every dial outcome (success, dial error,
cancellation, exchange failure), and the final rig frequency equals the
frequency the rig had when `Connect` was entered (the frequency read before
the change). -/
theorem connect_qsy_reverts_exactly_once
    (fuel : Nat) (env : Env) (st : State) (str : String) (url0 url2 : URL)
    (st1 st2 : State) (tr1 tr2 tr3 : Trace) (rig : Nat) (oldF : Int)
    (hne : str ≠ "") (hal : env.connectAliases str = none)
    (hparse : env.parseURL str = some url0)
    (hinit : modemInitStep env st url0 = (true, st1, tr1))
    (hro : radioOnlyStep env (applyDefaults env url0) = (some url2, tr2))
    (hqsy : qsyStep env st1 url2 = (some (some (rig, oldF)), st2, tr3)) :
    ((Connect (fuel + 1) env str st).2.2).countP Ev.isRevertEv = 1 ∧
    (Connect (fuel + 1) env str st).2.1.freqs rig = st.freqs rig := by
  have hc : Connect (fuel + 1) env str st = connectMain env str st := by
    simp [Connect, hne, hal]
  have hmain : connectMain env str st
      = dialTail env st2 url2 (some (rig, oldF))
          ([Ev.debugStr str] ++ tr1 ++ tr2 ++ tr3) := by
    simp only [connectMain, hparse, hinit, hro, hqsy]
  rw [hc, hmain]
  have hrv := dialTail_revert_once env st2 url2 rig oldF
    ([Ev.debugStr str] ++ tr1 ++ tr2 ++ tr3)
  have h1 : tr1.countP Ev.isRevertEv = 0 := by
    have hm := mem_modemInitStep_isModemEv env st url0
    rw [hinit] at hm
    exact countP_zero_of_mem _ _ (fun e he => (modemEv_not e (hm e he)).1)
  have h2 : tr2.countP Ev.isRevertEv = 0 := by
    rcases radioOnlyStep_trace_shape env (applyDefaults env url0) with hs | hs | ⟨s, hs⟩ <;>
      rw [hro] at hs <;> simp at hs <;> simp [hs, Ev.isRevertEv]
  have h3 : tr3.countP Ev.isRevertEv = 0 := by
    rcases qsyStep_trace_shape env st1 url2 with hs | hs | ⟨m, a, hs⟩ | ⟨m, a, r, f, o, hs⟩ <;>
      rw [hqsy] at hs <;> simp at hs <;> simp [hs, Ev.isRevertEv]
  refine ⟨?_, ?_⟩
  · rw [hrv.1]
    simp [List.countP_append, h1, h2, h3, Ev.isRevertEv]
  · rw [hrv.2]
    have ho : oldF = st1.freqs rig :=
      qsyStep_fst_some_oldFreq env st1 url2 rig oldF (by rw [hqsy])
    have hf : st1.freqs = st.freqs := by
      have hh := modemInitStep_freqs env st url0
      rw [hinit] at hh
      exact hh
    rw [ho, hf]

/-! Concrete environments and states used to instantiate the theorems. -/

/-- Fresh package-level state: no modem open, nothing dialing, all rigs at
7.000 MHz. -/
def stW : State :=
  { adTNC := none, pModem := none, varaHFModem := none, varaFMModem := none,
    dialing := none, registered := fun _ => none,
    freqs := fun _ => 7000000, nextHandle := 0 }

/-- A telnet descriptor carrying a `freq` parameter. -/
def urlW : URL :=
  { scheme := "telnet", target := "LA1B", user := some "N0CALL",
    host := "h", params := [("freq", "14100")] }

/-- An environment where the telnet scheme has a loaded rig, the dial
succeeds and the exchange succeeds. -/
def envW : Env :=
  { connectAliases := fun _ => none,
    parseURL := fun s => if s = "telnet://LA1B?freq=14100" then some urlW else none,
    myCall := "N0CALL", radioOnlyOpt := false, ignoreBusy := false,
    vfoFor := fun s => if s = "telnet" then VFORes.okRes 0 "rigA" else VFORes.errRes,
    parseFreq := fun a => if a = "14100" then some 14100000 else none,
    busy := [], dialOutcome := DialOutcome.ok, exchangeOk := true,
    ardopOpenOk := true, ardopPingOk := fun _ => true, arqBwZero := true,
    setARQOk := true, setCWIDOk := true, versionOk := true,
    ardopPTTControl := false, ardopRigOk := true,
    pactorOpenOk := true, varaOpenOk := true,
    varaHF := ⟨false, true⟩, varaFM := ⟨false, true⟩,
    ax25Port := "p", serialPath := "s", hbaud := 0, serialBaud := 0 }

/-- The state after the QSY block of the `envW` run. -/
def stW2 : State :=
  { stW with freqs := fun r => if r = 0 then 14100000 else stW.freqs r }

/-- Witness for C1: the hypotheses hold at the concrete telnet run, and
there the revert fires once and the 7.000 MHz pre-QSY frequency is back at
the end. -/
theorem connect_qsy_reverts_exactly_once_witness :
    ((Connect 1 envW "telnet://LA1B?freq=14100" stW).2.2).countP Ev.isRevertEv = 1 ∧
    (Connect 1 envW "telnet://LA1B?freq=14100" stW).2.1.freqs 0 = stW.freqs 0 :=
  connect_qsy_reverts_exactly_once 0 envW stW "telnet://LA1B?freq=14100"
    urlW urlW stW stW2 [] []
    [Ev.logQSY "telnet" "14100", Ev.setFreqCmd 0 14100000 7000000]
    0 7000000
    (by decide) rfl rfl rfl rfl rfl

/-- C10: `Connect` called with the empty string returns `false` immediately
with no side effects at all: the state is unchanged and the trace is empty
(no alias lookup, no parse, no modem init, no frequency change, and no
status-sink notification — the deferred update is never registered). -/
theorem connect_empty_no_effects (fuel : Nat) (env : Env) (st : State) :
    Connect (fuel + 1) env "" st = (false, st, []) := by
  simp [Connect]

/-- C4: a connect string that fails descriptor parsing (and is neither
empty nor an alias) makes `Connect` return `false`, opens no modem handle,
commands no frequency change, and leaves the state unchanged. -/
theorem connect_parse_fail_no_side_effects (fuel : Nat) (env : Env)
    (st : State) (str : String)
    (hne : str ≠ "") (hal : env.connectAliases str = none)
    (hparse : env.parseURL str = none) :
    (Connect (fuel + 1) env str st).1 = false ∧
    ((Connect (fuel + 1) env str st).2.2).countP Ev.isOpenEv = 0 ∧
    ((Connect (fuel + 1) env str st).2.2).countP Ev.isSetFreqEv = 0 ∧
    (Connect (fuel + 1) env str st).2.1 = st := by
  have hc : Connect (fuel + 1) env str st = connectMain env str st := by
    simp [Connect, hne, hal]
  rw [hc]
  simp [connectMain, hparse, finish, runDefers, runDeferred,
    List.countP_append, List.countP_cons, Ev.isOpenEv, Ev.isSetFreqEv]

/-- Witness for C4: a string the parser rejects. -/
theorem connect_parse_fail_no_side_effects_witness :
    (Connect 1 envW "bogus" stW).1 = false ∧
    ((Connect 1 envW "bogus" stW).2.2).countP Ev.isOpenEv = 0 ∧
    ((Connect 1 envW "bogus" stW).2.2).countP Ev.isSetFreqEv = 0 ∧
    (Connect 1 envW "bogus" stW).2.1 = stW :=
  connect_parse_fail_no_side_effects 0 envW stW "bogus" (by decide) rfl rfl

/-- C7: a descriptor carrying a `freq` parameter whose scheme has no loaded
rig makes `Connect` return `false` without ever issuing the transport-level
dial (the QSY failure precedes the dial step). -/
theorem connect_freq_no_rig_no_dial (fuel : Nat) (env : Env) (st : State)
    (str : String) (url0 url2 : URL) (st1 : State) (tr1 tr2 : Trace)
    (nm : String)
    (hne : str ≠ "") (hal : env.connectAliases str = none)
    (hparse : env.parseURL str = some url0)
    (hinit : modemInitStep env st url0 = (true, st1, tr1))
    (hro : radioOnlyStep env (applyDefaults env url0) = (some url2, tr2))
    (hfreq : url2.getParam "freq" ≠ "")
    (hvfo : env.vfoFor url2.scheme = VFORes.notLoaded nm) :
    (Connect (fuel + 1) env str st).1 = false ∧
    ((Connect (fuel + 1) env str st).2.2).countP Ev.isDialEv = 0 := by
  have hc : Connect (fuel + 1) env str st = connectMain env str st := by
    simp [Connect, hne, hal]
  rw [hc]
  have hqs : qsyStep env st1 url2 = (none, st1, [Ev.logQSYErr]) := by
    simp [qsyStep, hfreq, qsy, hvfo]
  have h1 : tr1.countP Ev.isDialEv = 0 := by
    have hm := mem_modemInitStep_isModemEv env st url0
    rw [hinit] at hm
    exact countP_zero_of_mem _ _ (fun e he => (modemEv_not e (hm e he)).2.2.1)
  have h2 : tr2.countP Ev.isDialEv = 0 := by
    rcases radioOnlyStep_trace_shape env (applyDefaults env url0) with hs | hs | ⟨s, hs⟩ <;>
      rw [hro] at hs <;> simp at hs <;> simp [hs, Ev.isDialEv]
  simp [connectMain, hparse, hinit, hro, hqs, finish, runDefers, runDeferred,
    List.countP_append, List.countP_cons, Ev.isDialEv, h1, h2]

/-- An environment like `envW` where no scheme has a loaded rig. -/
def envC7 : Env := { envW with vfoFor := fun _ => VFORes.notLoaded "rigA" }

/-- Witness for C7: the telnet descriptor with `freq` under `envC7`. -/
theorem connect_freq_no_rig_no_dial_witness :
    (Connect 1 envC7 "telnet://LA1B?freq=14100" stW).1 = false ∧
    ((Connect 1 envC7 "telnet://LA1B?freq=14100" stW).2.2).countP Ev.isDialEv = 0 :=
  connect_freq_no_rig_no_dial 0 envC7 stW "telnet://LA1B?freq=14100"
    urlW urlW stW [] [] "rigA" (by decide) rfl rfl rfl rfl (by decide) rfl

/-- C6: when the package-level cancellation hook fires while the dial is in
flight (the dial resolves as `context.Canceled`), that `Connect` call
returns `false`, reports the outcome as a cancellation exactly once and not
as a dial error, and the "currently dialing" slot is nil after it
returns. -/
theorem connect_cancelled_reports_cancel (fuel : Nat) (env : Env)
    (st : State) (str : String) (url0 url2 : URL) (st1 st2 : State)
    (tr1 tr2 tr3 : Trace) (ro : Option (Nat × Int))
    (hne : str ≠ "") (hal : env.connectAliases str = none)
    (hparse : env.parseURL str = some url0)
    (hinit : modemInitStep env st url0 = (true, st1, tr1))
    (hro : radioOnlyStep env (applyDefaults env url0) = (some url2, tr2))
    (hqsy : qsyStep env st1 url2 = (some ro, st2, tr3))
    (hcancel : env.dialOutcome = DialOutcome.cancelled) :
    (Connect (fuel + 1) env str st).1 = false ∧
    ((Connect (fuel + 1) env str st).2.2).countP Ev.isCancelLogEv = 1 ∧
    ((Connect (fuel + 1) env str st).2.2).countP Ev.isDialErrLogEv = 0 ∧
    (Connect (fuel + 1) env str st).2.1.dialing = none := by
  have hc : Connect (fuel + 1) env str st = connectMain env str st := by
    simp [Connect, hne, hal]
  have hmain : connectMain env str st
      = dialTail env st2 url2 ro ([Ev.debugStr str] ++ tr1 ++ tr2 ++ tr3) := by
    simp only [connectMain, hparse, hinit, hro, hqsy]
  rw [hc, hmain]
  have hdt := dialTail_cancelled env st2 url2 ro
    ([Ev.debugStr str] ++ tr1 ++ tr2 ++ tr3) hcancel
  have h1c : tr1.countP Ev.isCancelLogEv = 0 := by
    have hm := mem_modemInitStep_isModemEv env st url0
    rw [hinit] at hm
    exact countP_zero_of_mem _ _ (fun e he => (modemEv_not e (hm e he)).2.2.2.1)
  have h1d : tr1.countP Ev.isDialErrLogEv = 0 := by
    have hm := mem_modemInitStep_isModemEv env st url0
    rw [hinit] at hm
    exact countP_zero_of_mem _ _ (fun e he => (modemEv_not e (hm e he)).2.2.2.2)
  have h2c : tr2.countP Ev.isCancelLogEv = 0 := by
    rcases radioOnlyStep_trace_shape env (applyDefaults env url0) with hs | hs | ⟨s, hs⟩ <;>
      rw [hro] at hs <;> simp at hs <;> simp [hs, Ev.isCancelLogEv]
  have h2d : tr2.countP Ev.isDialErrLogEv = 0 := by
    rcases radioOnlyStep_trace_shape env (applyDefaults env url0) with hs | hs | ⟨s, hs⟩ <;>
      rw [hro] at hs <;> simp at hs <;> simp [hs, Ev.isDialErrLogEv]
  have h3c : tr3.countP Ev.isCancelLogEv = 0 := by
    rcases qsyStep_trace_shape env st1 url2 with hs | hs | ⟨m, a, hs⟩ | ⟨m, a, r, f, o, hs⟩ <;>
      rw [hqsy] at hs <;> simp at hs <;> simp [hs, Ev.isCancelLogEv]
  have h3d : tr3.countP Ev.isDialErrLogEv = 0 := by
    rcases qsyStep_trace_shape env st1 url2 with hs | hs | ⟨m, a, hs⟩ | ⟨m, a, r, f, o, hs⟩ <;>
      rw [hqsy] at hs <;> simp at hs <;> simp [hs, Ev.isDialErrLogEv]
  refine ⟨hdt.1, ?_, ?_, hdt.2.2.2⟩
  · rw [hdt.2.1]
    simp [List.countP_append, h1c, h2c, h3c, Ev.isCancelLogEv]
  · rw [hdt.2.2.1]
    simp [List.countP_append, h1d, h2d, h3d, Ev.isDialErrLogEv]

/-- An environment like `envW` where the in-flight dial is cancelled. -/
def envC6 : Env := { envW with dialOutcome := DialOutcome.cancelled }

/-- Witness for C6: the telnet run with a cancelled dial. -/
theorem connect_cancelled_reports_cancel_witness :
    (Connect 1 envC6 "telnet://LA1B?freq=14100" stW).1 = false ∧
    ((Connect 1 envC6 "telnet://LA1B?freq=14100" stW).2.2).countP Ev.isCancelLogEv = 1 ∧
    ((Connect 1 envC6 "telnet://LA1B?freq=14100" stW).2.2).countP Ev.isDialErrLogEv = 0 ∧
    (Connect 1 envC6 "telnet://LA1B?freq=14100" stW).2.1.dialing = none :=
  connect_cancelled_reports_cancel 0 envC6 stW "telnet://LA1B?freq=14100"
    urlW urlW stW stW2 [] []
    [Ev.logQSY "telnet" "14100", Ev.setFreqCmd 0 14100000 7000000]
    (some (0, 7000000)) (by decide) rfl rfl rfl rfl rfl rfl

/-- C8: `connectAny` tries candidates strictly in argument order and
short-circuits on the first success: when the head `Connect` succeeds the
overall result is exactly the head's result — independent of whatever
candidates follow, so `Connect` is never invoked on them; when the head
fails the remaining candidates are tried from the resulting state with the
traces concatenated; the empty candidate list yields `false` with no
effects. -/
theorem connectAny_in_order_short_circuit (fuel : Nat) (env : Env)
    (st : State) (c : String) (rest : List String) :
    (∀ rest2, (Connect fuel env c st).1 = true →
        connectAny fuel env (c :: rest) st = connectAny fuel env (c :: rest2) st) ∧
    ((Connect fuel env c st).1 = true →
        connectAny fuel env (c :: rest) st = Connect fuel env c st) ∧
    ((Connect fuel env c st).1 = false →
        connectAny fuel env (c :: rest) st =
          ((connectAny fuel env rest (Connect fuel env c st).2.1).1,
           (connectAny fuel env rest (Connect fuel env c st).2.1).2.1,
           (Connect fuel env c st).2.2 ++
             (connectAny fuel env rest (Connect fuel env c st).2.1).2.2)) ∧
    connectAny fuel env [] st = (false, st, []) := by
  have hsucc : ∀ r : List String, (Connect fuel env c st).1 = true →
      connectAny fuel env (c :: r) st = Connect fuel env c st := by
    intro r h
    rcases hx : Connect fuel env c st with ⟨b, st1, tr⟩
    rw [hx] at h
    simp only at h
    subst h
    simp [connectAny, hx]
  refine ⟨?_, hsucc rest, ?_, rfl⟩
  · intro rest2 h
    rw [hsucc rest h, hsucc rest2 h]
  · intro h
    rcases hx : Connect fuel env c st with ⟨b, st1, tr⟩
    rw [hx] at h
    simp only at h
    subst h
    simp [connectAny, hx]

/-- Witness for C8: under `envW` the first candidate dials successfully, so
`connectAny` returns its result and the trailing candidate is irrelevant. -/
theorem connectAny_in_order_short_circuit_witness :
    connectAny 1 envW ["telnet://LA1B?freq=14100", "x"] stW
      = Connect 1 envW "telnet://LA1B?freq=14100" stW :=
  (connectAny_in_order_short_circuit 1 envW stW "telnet://LA1B?freq=14100"
    ["x"]).2.1 rfl

/-- The busy-gate loop without ignore-busy returns as soon as the channel
reads not busy: if the first clear poll is after `n` busy polls, it
terminates with exactly `n` busy observations. -/
theorem waitBusyGo_first_clear (busy : Nat → Bool) :
    ∀ (n i : Nat) (printed : Bool),
      (∀ j, j < n → busy (i + j) = true) → busy (i + n) = false →
      ∃ tr : Trace, waitBusyGo false busy (n + 1) i printed = some tr ∧
        tr.countP (fun e => e == Ev.busyObserved) = n := by
  intro n
  induction n with
  | zero =>
    intro i printed h1 h2
    refine ⟨[], ?_, rfl⟩
    have hb : busy i = false := by simpa using h2
    simp [waitBusyGo, hb]
  | succ m ih =>
    intro i printed h1 h2
    have hb : busy i = true := by
      have hh := h1 0 (Nat.succ_pos m)
      simpa using hh
    have h1s : ∀ j, j < m → busy ((i + 1) + j) = true := by
      intro j hj
      have hh := h1 (j + 1) (Nat.succ_lt_succ hj)
      have he : i + (j + 1) = (i + 1) + j := by omega
      rwa [he] at hh
    have h2s : busy ((i + 1) + m) = false := by
      have he : i + (m + 1) = (i + 1) + m := by omega
      rwa [he] at h2
    obtain ⟨tr, htr, hc⟩ := ih (i + 1) true h1s h2s
    cases printed
    case false =>
      refine ⟨[Ev.busyObserved, Ev.logWaitingClear] ++ tr, ?_, ?_⟩
      · generalize hgen : m + 1 = k at htr ⊢
        simp [waitBusyGo, hb, htr]
      · simp [List.countP_cons, hc]
    case true =>
      refine ⟨[Ev.busyObserved] ++ tr, ?_, ?_⟩
      · generalize hgen : m + 1 = k at htr ⊢
        simp [waitBusyGo, hb, htr]
      · simp [List.countP_cons, hc]

/-- C9: with ignore-busy set, `waitBusy` terminates after at most one busy
observation and logs the busy channel at most once, for EVERY busy
predicate — even one that reports busy forever (fuel 1 suffices); without
it, `waitBusy` returns as soon as the channel reads not busy: if the first
clear poll is at index `n`, it terminates with exactly `n` busy
observations. -/
theorem waitBusy_ignore_and_clear (busy : Nat → Bool) (n : Nat) :
    (∃ tr : Trace, waitBusy true busy 1 = some tr ∧
        tr.countP (fun e => e == Ev.busyObserved) ≤ 1 ∧
        tr.countP (fun e => e == Ev.logIgnoringBusy) ≤ 1) ∧
    ((∀ j, j < n → busy j = true) → busy n = false →
      ∃ tr : Trace, waitBusy false busy (n + 1) = some tr ∧
        tr.countP (fun e => e == Ev.busyObserved) = n) := by
  constructor
  · cases hb : busy 0
    · exact ⟨[], by simp [waitBusy, waitBusyGo, hb], by simp, by simp⟩
    · exact ⟨[Ev.busyObserved, Ev.logIgnoringBusy],
        by simp [waitBusy, waitBusyGo, hb], by simp [List.countP_cons],
        by simp [List.countP_cons]⟩
  · intro h1 h2
    have hh := waitBusyGo_first_clear busy n 0 false
      (by intro j hj; simpa using h1 j hj) (by simpa using h2)
    simpa [waitBusy] using hh

/-- Witness for C9: a channel that is busy exactly on the first poll. -/
theorem waitBusy_ignore_and_clear_witness :
    (∃ tr : Trace, waitBusy true (fun i => i == 0) 1 = some tr ∧
        tr.countP (fun e => e == Ev.busyObserved) ≤ 1 ∧
        tr.countP (fun e => e == Ev.logIgnoringBusy) ≤ 1) ∧
    (∃ tr : Trace, waitBusy false (fun i => i == 0) 2 = some tr ∧
        tr.countP (fun e => e == Ev.busyObserved) = 1) :=
  ⟨(waitBusy_ignore_and_clear (fun i => i == 0) 1).1,
   (waitBusy_ignore_and_clear (fun i => i == 0) 1).2
     (by decide) (by decide)⟩

/-- State with an existing pactor modem handle 0. -/
def stP : State := { stW with pModem := some 0, nextHandle := 1 }

/-- Counterexample to C3 as stated: pactor has no liveness probe, so by the
claim its non-nil handle counts as healthy and re-initialization should
perform no open and no close — but `initPactorModem` unconditionally closes
the existing handle and opens a new one. -/
theorem initPactor_healthy_reinit_closes :
    ((initPactorModem envW stP "").2.2).countP Ev.isCloseEv = 1 ∧
    ((initPactorModem envW stP "").2.2).countP Ev.isOpenEv = 1 := by decide

theorem initArdopOpen_countClose (env : Env) (st : State) (tr0 : Trace) :
    ((initArdopOpen env st tr0).2.2).countP Ev.isCloseEv
      = tr0.countP Ev.isCloseEv := by
  simp only [initArdopOpen]
  repeat' split
  all_goals simp [List.countP_append, List.countP_cons, Ev.isCloseEv]

theorem initArdopOpen_headCons (env : Env) (st : State) (x : Ev) (tr0 : Trace) :
    ((initArdopOpen env st (x :: tr0)).2.2).head? = some x := by
  simp only [initArdopOpen]
  repeat' split
  all_goals simp

/-- C3 amended: for ardop — the scheme with a liveness probe — re-running
the init with a handle that pings healthy performs no open and no close
(idempotent reuse), and with a handle that fails the ping the old handle is
closed exactly once, as the first emitted effect (before any open).  For
pactor and vara — the schemes with no probe — re-running the init
unconditionally closes the existing non-nil handle exactly once before
opening a new one, even though the claim's healthy-if-non-nil criterion
calls that handle healthy. -/
theorem modem_reinit_close_behavior :
    (∀ (env : Env) (st : State) (h : Nat),
        st.adTNC = some h → env.ardopPingOk h = true →
        initArdopTNC env st = (true, st, [])) ∧
    (∀ (env : Env) (st : State) (h : Nat),
        st.adTNC = some h → env.ardopPingOk h = false →
        ((initArdopTNC env st).2.2).countP Ev.isCloseEv = 1 ∧
        ((initArdopTNC env st).2.2).head? = some (Ev.modemClose MethodArdop h)) ∧
    (∀ (env : Env) (st : State) (h : Nat) (cmd : String),
        st.pModem = some h →
        ((initPactorModem env st cmd).2.2).countP Ev.isCloseEv = 1 ∧
        ((initPactorModem env st cmd).2.2).head? = some (Ev.modemClose MethodPactor h)) ∧
    (∀ (env : Env) (st : State) (h : Nat) (scheme : String) (conf : VaraConf),
        ((initVaraModem env st (some h) scheme conf).2.2).countP Ev.isCloseEv = 1 ∧
        ((initVaraModem env st (some h) scheme conf).2.2).head?
          = some (Ev.modemClose scheme h)) := by
  refine ⟨?_, ?_, ?_, ?_⟩
  · intro env st h hs hp
    simp [initArdopTNC, hs, hp]
  · intro env st h hs hp
    simp only [initArdopTNC, hs]
    rw [if_neg (by simp [hp])]
    constructor
    · rw [initArdopOpen_countClose]
      simp [List.countP_cons, Ev.isCloseEv]
    · exact initArdopOpen_headCons _ _ _ _
  · intro env st h cmd hs
    simp only [initPactorModem, hs]
    split
    all_goals simp [List.countP_append, List.countP_cons, Ev.isCloseEv]
  · intro env st h scheme conf
    simp only [initVaraModem]
    repeat' split
    all_goals simp [List.countP_append, List.countP_cons, Ev.isCloseEv]

/-- State with an existing ardop TNC handle 0. -/
def stA : State := { stW with adTNC := some 0, nextHandle := 1 }

/-- An environment where the existing ardop TNC fails its ping. -/
def envPingFail : Env := { envW with ardopPingOk := fun _ => false }

/-- Witness for the amended C3: all four behaviors at concrete inputs. -/
theorem modem_reinit_close_behavior_witness :
    initArdopTNC envW stA = (true, stA, []) ∧
    (((initArdopTNC envPingFail stA).2.2).countP Ev.isCloseEv = 1 ∧
      ((initArdopTNC envPingFail stA).2.2).head? = some (Ev.modemClose MethodArdop 0)) ∧
    (((initPactorModem envW stP "").2.2).countP Ev.isCloseEv = 1 ∧
      ((initPactorModem envW stP "").2.2).head? = some (Ev.modemClose MethodPactor 0)) ∧
    (((initVaraModem envW stW (some 0) MethodVaraHF envW.varaHF).2.2).countP Ev.isCloseEv = 1 ∧
      ((initVaraModem envW stW (some 0) MethodVaraHF envW.varaHF).2.2).head?
        = some (Ev.modemClose MethodVaraHF 0)) :=
  ⟨modem_reinit_close_behavior.1 envW stA 0 rfl rfl,
   modem_reinit_close_behavior.2.1 envPingFail stA 0 rfl rfl,
   modem_reinit_close_behavior.2.2.1 envW stP 0 "" rfl,
   modem_reinit_close_behavior.2.2.2 envW stW 0 MethodVaraHF envW.varaHF⟩

/-- An ardop descriptor with no parameters. -/
def urlC5 : URL :=
  { scheme := "ardop", target := "LA1B", user := some "N0X-1",
    host := "h", params := [] }

/-- An environment with global radio-only set and a station callsign that
carries an SSID suffix. -/
def envC5 : Env :=
  { envW with
    myCall := "N0X-1", radioOnlyOpt := true,
    parseURL := fun s => if s = "ardop:///LA1B" then some urlC5 else none }

/-- Counterexample to C5 as stated: with radio-only in effect and an SSID
in the callsign, `Connect` does return `false` — but a modem handle IS
opened, because the modem-initialization switch runs before the radio-only
check. -/
theorem connect_radio_only_ssid_opens_modem :
    (Connect 1 envC5 "ardop:///LA1B" stW).1 = false ∧
    ((Connect 1 envC5 "ardop:///LA1B" stW).2.2).countP Ev.isOpenEv = 1 := by
  decide

/-- C5 amended: when radio-only is in effect (global option or
per-descriptor override) and the station callsign carries an SSID suffix,
`Connect` returns `false` without issuing the transport-level dial and
without commanding any frequency change; modem initialization for the
scheme, however, runs before the radio-only check and may already have
opened a handle. -/
theorem connect_radio_only_ssid_rejects (fuel : Nat) (env : Env)
    (st : State) (str : String) (url0 : URL)
    (hne : str ≠ "") (hal : env.connectAliases str = none)
    (hparse : env.parseURL str = some url0)
    (hro : radioOnlyStep env (applyDefaults env url0)
        = (none, [Ev.logRadioOnlySSID])) :
    (Connect (fuel + 1) env str st).1 = false ∧
    ((Connect (fuel + 1) env str st).2.2).countP Ev.isDialEv = 0 ∧
    ((Connect (fuel + 1) env str st).2.2).countP Ev.isSetFreqEv = 0 := by
  have hc : Connect (fuel + 1) env str st = connectMain env str st := by
    simp [Connect, hne, hal]
  rw [hc]
  rcases hini : modemInitStep env st url0 with ⟨b, st1, tr1⟩
  have hm := mem_modemInitStep_isModemEv env st url0
  rw [hini] at hm
  have h1d : tr1.countP Ev.isDialEv = 0 :=
    countP_zero_of_mem _ _ (fun e he => (modemEv_not e (hm e he)).2.2.1)
  have h1s : tr1.countP Ev.isSetFreqEv = 0 :=
    countP_zero_of_mem _ _ (fun e he => (modemEv_not e (hm e he)).2.1)
  cases b
  · simp [connectMain, hparse, hini, finish, runDefers, runDeferred,
      List.countP_append, List.countP_cons, Ev.isDialEv, Ev.isSetFreqEv,
      h1d, h1s]
  · simp [connectMain, hparse, hini, hro, finish, runDefers, runDeferred,
      List.countP_append, List.countP_cons, Ev.isDialEv, Ev.isSetFreqEv,
      h1d, h1s]

/-- Witness for the amended C5 at the concrete ardop run. -/
theorem connect_radio_only_ssid_rejects_witness :
    (Connect 1 envC5 "ardop:///LA1B" stW).1 = false ∧
    ((Connect 1 envC5 "ardop:///LA1B" stW).2.2).countP Ev.isDialEv = 0 ∧
    ((Connect 1 envC5 "ardop:///LA1B" stW).2.2).countP Ev.isSetFreqEv = 0 :=
  connect_radio_only_ssid_rejects 0 envC5 stW "ardop:///LA1B" urlC5
    (by decide) rfl rfl (by decide)

/-- A varahf descriptor. -/
def urlV : URL :=
  { scheme := "varahf", target := "LA1B", user := some "N0CALL",
    host := "h", params := [] }

/-- An environment where the varahf descriptor parses and every external
step succeeds. -/
def envV : Env :=
  { envW with
    parseURL := fun s => if s = "varahf:///LA1B" then some urlV else none }

/-- C2 fails on the code (Go slip): `initVaraModem` receives the
package-level modem pointer by value and assigns the newly opened modem to
that parameter, so `varaHFModem` stays nil.  Two successive varahf
`Connect` calls therefore open two VARA handles and close none — the first
handle is left unreferenced and unclosed, violating the
closed-exactly-once invariant. -/
theorem connect_vara_reinit_leaks_handle :
    ((Connect 1 envV "varahf:///LA1B" stW).2.2 ++
        (Connect 1 envV "varahf:///LA1B"
          (Connect 1 envV "varahf:///LA1B" stW).2.1).2.2).countP
      (Ev.isOpenForEv MethodVaraHF) = 2 ∧
    ((Connect 1 envV "varahf:///LA1B" stW).2.2 ++
        (Connect 1 envV "varahf:///LA1B"
          (Connect 1 envV "varahf:///LA1B" stW).2.1).2.2).countP
      (Ev.isCloseForEv MethodVaraHF) = 0 ∧
    (Connect 1 envV "varahf:///LA1B"
      (Connect 1 envV "varahf:///LA1B" stW).2.1).2.1.varaHFModem = none := by
  decide
